import Mathlib

/-!
# Verification of the SRE control-plane core

A shallow embedding, in Lean 4, of the parts of the multi-agent SRE
assistant that the specification's claims are about:

* the deterministic policy engine (`sre_agent/policy_engine.py`),
* the tool invocation wrapper: retry, circuit breaker, audit
  (`sre_agent/mcp_tool_wrapper.py`),
* the reflector's tool-failure detection and the OODA investigation loop
  (`sre_agent/graph_builder.py`),
* the job CRUD layer and its HTTP routes (`backend/crud.py`,
  `sre_agent/api/v1/jobs.py`),
* the cluster lock / audit routes (`sre_agent/api/v1/clusters.py`),
* the Redis-backed session state store (`sre_agent/redis_state_store.py`)
  and the approval/resume flow (`sre_agent/agent_runtime.py`).

Python dictionaries are modelled as association lists, database tables as
lists of records, timestamps as natural numbers (seconds), float risk
scores as rationals (every score the engine produces is a finite sum of
halves), and raised exceptions as `Except` values.
-/

namespace SRE

/-! ## String helpers

Python's `pat in s` substring test, on the underlying character lists. -/

/-- `charsHasPre pat s` is true iff `pat` is an initial run of `s`. -/
def charsHasPre : List Char → List Char → Bool
  | [], _ => true
  | _ :: _, [] => false
  | p :: ps, c :: cs => p == c && charsHasPre ps cs

/-- `charsHasSub pat s` is true iff `pat` occurs contiguously in `s`. -/
def charsHasSub (pat : List Char) : List Char → Bool
  | [] => pat.isEmpty
  | c :: rest => charsHasPre pat (c :: rest) || charsHasSub pat rest

/-- Python's `pat in s` substring membership on strings. -/
def strContains (s pat : String) : Bool :=
  charsHasSub pat.data s.data

/-- Python's `s.lower()` (ASCII case folding suffices for the engine's inputs). -/
def strLower (s : String) : String :=
  ⟨s.data.map Char.toLower⟩

/-- HTTP handlers are embedded as `Except`-valued functions; their results
are decidably comparable. -/
instance {ε α : Type _} [DecidableEq ε] [DecidableEq α] :
    DecidableEq (Except ε α) := fun
  | .error a, .error b =>
    if h : a = b then .isTrue (by rw [h])
    else .isFalse (fun hh => h (Except.error.inj hh))
  | .error _, .ok _ => .isFalse Except.noConfusion
  | .ok _, .error _ => .isFalse Except.noConfusion
  | .ok a, .ok b =>
    if h : a = b then .isTrue (by rw [h])
    else .isFalse (fun hh => h (Except.ok.inj hh))

/-! ## Policy engine (`sre_agent/policy_engine.py`)

`evaluate_action` is translated clause by clause from the source.  The
action's parameter map holds Python values; we model the values that can
reach the engine (numbers, strings, booleans, `None`). -/

/-- A Python value stored in an action's parameter map. -/
inductive PValue where
  | pint (n : Int)
  | pstr (s : String)
  | pbool (b : Bool)
  | pnone
deriving DecidableEq

/-- Python truthiness of a parameter value (`0`, `""`, `False`, `None` are falsy). -/
def pTruthy : PValue → Bool
  | .pint n => n != 0
  | .pstr s => !s.isEmpty
  | .pbool b => b
  | .pnone => false

/-- Python's `v == 0` on a looked-up parameter (`False == 0` holds in Python). -/
def pEqZero : Option PValue → Bool
  | some (.pint n) => n == 0
  | some (.pbool b) => b == false
  | _ => false

/-- A parameter map (`action.parameters`). -/
abbrev Params := List (String × PValue)

/-- `d.get(k)`: the first binding of `k`, if any. -/
def pGet (ps : Params) (k : String) : Option PValue :=
  (ps.find? (fun kv => kv.1 == k)).map (fun kv => kv.2)

/-- `d.get("replicas", d.get("replica_count", None))` from rule 3. -/
def getReplicas (ps : Params) : Option PValue :=
  match pGet ps "replicas" with
  | some v => some v
  | none => pGet ps "replica_count"

/-- Modelled from the spec: `sre_agent/agent_state.py`, which defines the
`RemediationAction` pydantic model, is not among the sources; spec §3 gives
its shape — an action type, a target identifier and a parameter map (the
remaining fields are not read by the policy engine). -/
structure RemediationAction where
  action_type : String
  target : String
  parameters : Params
deriving DecidableEq

/-- `evaluate_action` (policy_engine.py:24-98): deterministic safety rules,
evaluated top to bottom, first matching rule returns.  Risk scores are
rationals; `action.parameters` is always a dict in this embedding, so the
`isinstance(..., dict)` guards of rules 3 and 4 hold. -/
def evaluate_action (action : RemediationAction) (environment : String)
    (risk_score : ℚ) : Bool × String :=
  let env_lower := strLower environment
  let action_type := strLower action.action_type
  -- Rule 1: Block RESTART on PROD unless risk < 3
  if action_type == "restart" && env_lower == "production" then
    if 3 ≤ risk_score then
      (false, "RESTART blocked on PROD: Risk score >= 3.0")
    else
      (true, "RESTART allowed on PROD: Risk score < 3.0")
  -- Rule 2: Block DELETE on PROD
  else if (action_type == "delete" || action_type == "patch")
      && strContains action_type "delete" && env_lower == "production" then
    (false, "DELETE blocked on PROD: Too dangerous for production")
  -- Rule 3: Block SCALE DOWN to 0 on PROD
  else if action_type == "scale" && pEqZero (getReplicas action.parameters)
      && env_lower == "production" then
    (false, "SCALE DOWN to 0 blocked on PROD: Would cause service outage")
  -- Rule 4: Block ROLLBACK on PROD without explicit approval flag
  else if action_type == "rollback" && env_lower == "production"
      && !pTruthy ((pGet action.parameters "explicit_approval").getD .pnone) then
    (false, "ROLLBACK blocked on PROD: Requires explicit approval flag")
  -- Rule 5: Allow all actions in non-PROD environments
  else if env_lower != "production" then
    (true, "Action allowed: Non-production environment")
  -- Rule 6: Default allow for other action types in PROD
  else
    (true, "Action allowed: default policy")

/-! ## Tool invocation wrapper (`sre_agent/mcp_tool_wrapper.py`)

The composed stack built by `wrap_all_tools_with_retry`: the retry layer is
innermost, the circuit breaker is in the middle, the audit layer is
outermost.  A tool's behaviour is a function from the invocation ordinal
(how many times the underlying tool has been invoked so far, process-wide)
to either a result or a raised exception. -/

/-- A raised Python exception, as seen by the wrapper layers.  `isRetryError`
distinguishes tenacity's `RetryError` from every other exception class. -/
structure PyExc where
  isRetryError : Bool
  msg : String
deriving DecidableEq

/-- The structured error of `ToolError` (mcp_tool_wrapper.py:37-47). -/
structure ToolError where
  tool_name : String
  error_message : String
  retry_count : Nat
  is_recoverable : Bool
  suggestion : String
deriving DecidableEq

/-- `ToolError.to_agent_response` (mcp_tool_wrapper.py:49-54): the string
serialisation actually returned to the agent. -/
def ToolError.to_agent_response (e : ToolError) : String :=
  "Error: Tool " ++ e.tool_name ++ " failed after " ++ toString e.retry_count ++
    " attempts. Proceeding without this data. (Error: " ++ e.error_message ++ ")"

/-- `max_attempts` default of `wrap_tool_with_retry`. -/
def MAX_ATTEMPTS : Nat := 3

/-- One call of the tenacity-decorated inner function
(`retry(stop_after_attempt(max_attempts), ..., reraise=True)`): up to `n`
attempts against the underlying tool; on exhaustion, because `reraise=True`,
the *last attempt's exception* propagates unchanged — tenacity never raises
a `RetryError` here.  `count` is the number of underlying invocations made
so far; the new count is returned alongside the outcome. -/
def tenacityInvoke (beh : Nat → Except PyExc String) :
    Nat → Nat → Except PyExc String × Nat
  | 0, count => (Except.error ⟨false, "stop_after_attempt 0"⟩, count)
  | n + 1, count =>
    match beh count with
    | .ok v => (.ok v, count + 1)
    | .error e =>
      if n = 0 then (.error e, count + 1) else tenacityInvoke beh n (count + 1)

/-- `safe_invoke` (mcp_tool_wrapper.py:118-146), with the returned value kept
structured: `Sum.inl` is the tool's own result, `Sum.inr` the `ToolError`
built in an `except` branch.  The `except RetryError` branch builds
`retry_count = max_attempts, is_recoverable = false`; the `except Exception`
branch builds `retry_count = 1, is_recoverable = true`. -/
def safeInvokeR (tool_name : String) (beh : Nat → Except PyExc String)
    (count : Nat) : (String ⊕ ToolError) × Nat :=
  match tenacityInvoke beh MAX_ATTEMPTS count with
  | (.ok v, c) => (Sum.inl v, c)
  | (.error e, c) =>
    if e.isRetryError then
      (Sum.inr ⟨tool_name, e.msg, MAX_ATTEMPTS, false,
        "The " ++ tool_name ++ " tool is unavailable. Proceed with data from other tools."⟩, c)
    else
      (Sum.inr ⟨tool_name, e.msg, 1, true,
        "Single failure in " ++ tool_name ++ ". Consider retrying manually."⟩, c)

/-- `safe_invoke` as the agent sees it: a `ToolError` is serialised through
`to_agent_response`; the wrapper itself never raises. -/
def safe_invoke (tool_name : String) (beh : Nat → Except PyExc String)
    (count : Nat) : String × Nat :=
  match safeInvokeR tool_name beh count with
  | (Sum.inl v, c) => (v, c)
  | (Sum.inr e, c) => (e.to_agent_response, c)

/-- Per-tool circuit-breaker state (`_CIRCUIT_BREAKER_STATE`, for one tool):
zero failures, no recorded failure time, closed. -/
structure CBState where
  failures : Nat
  last_failure : Option Nat
  is_open : Bool
deriving DecidableEq

/-- The initial (module-load) circuit-breaker state for any tool. -/
def CBState.init : CBState := ⟨0, none, false⟩

def CIRCUIT_BREAKER_THRESHOLD : Nat := 5
def CIRCUIT_BREAKER_RECOVERY_TIME : Nat := 60

/-- `check_circuit_breaker` (mcp_tool_wrapper.py:295-307): raises while the
breaker is open and inside the cooldown window, otherwise returns (a lapsed
cooldown is the half-open probe). -/
def check_circuit_breaker (cb : CBState) (now : Nat) : Except PyExc Unit :=
  if cb.is_open then
    match cb.last_failure with
    | some t =>
      if now - t < CIRCUIT_BREAKER_RECOVERY_TIME then
        .error ⟨false, "Circuit Breaker OPEN"⟩
      else .ok ()
    | none => .ok ()
  else .ok ()

/-- `record_success` (mcp_tool_wrapper.py:309-314). -/
def record_success (cb : CBState) : CBState :=
  if 0 < cb.failures then { cb with failures := 0, is_open := false } else cb

/-- `record_failure` (mcp_tool_wrapper.py:316-325). -/
def record_failure (cb : CBState) (now : Nat) : CBState :=
  let current := cb.failures + 1
  { failures := current
    last_failure := some now
    is_open := if CIRCUIT_BREAKER_THRESHOLD ≤ current then true else cb.is_open }

/-- `cb_invoke` (mcp_tool_wrapper.py:338-346), generic in the wrapped inner
invocation: check the breaker (propagating its exception), call the inner
layer, record success on a normal return and failure on a raised
exception. -/
def cb_invoke (inner : Nat → Except PyExc String × Nat) (now : Nat)
    (cb : CBState) (count : Nat) : Except PyExc String × CBState × Nat :=
  match check_circuit_breaker cb now with
  | .error e => (.error e, cb, count)
  | .ok _ =>
    match inner count with
    | (.ok v, c) => (.ok v, record_success cb, c)
    | (.error e, c) => (.error e, record_failure cb now, c)

/-- A finalised audit row for one call (the `PENDING` row opened on entry is
finalised to `SUCCESS`/`FAILURE` on exit; we record the final state). -/
structure AuditRow where
  tool_name : String
  status : String
deriving DecidableEq

/-- Process-wide wrapper state for one tool: its breaker, the number of
underlying tool invocations made, and the audit log. -/
structure WrapSim where
  cb : CBState
  invocations : Nat
  audit : List AuditRow
deriving DecidableEq

def WrapSim.init : WrapSim := ⟨CBState.init, 0, []⟩

/-- One call through the composed stack of `wrap_all_tools_with_retry`
(mcp_tool_wrapper.py:365-393): audit(circuit_breaker(retry(tool))).  The
retry layer is the circuit breaker's inner invocation; since `safe_invoke`
returns its error *string* instead of raising, the inner invocation always
returns `.ok`.  The audit layer finalises its row from the outcome and
re-raises breaker exceptions. -/
def composed_call (tool_name : String) (beh : Nat → Except PyExc String)
    (now : Nat) (s : WrapSim) : Except PyExc String × WrapSim :=
  let innerRetry : Nat → Except PyExc String × Nat := fun count =>
    let rc := safe_invoke tool_name beh count
    (.ok rc.1, rc.2)
  match cb_invoke innerRetry now s.cb s.invocations with
  | (.ok v, cb', c') =>
    (.ok v, ⟨cb', c', s.audit ++ [⟨tool_name, "SUCCESS"⟩]⟩)
  | (.error e, cb', c') =>
    (.error e, ⟨cb', c', s.audit ++ [⟨tool_name, "FAILURE"⟩]⟩)

/-- The wrapper state after the first `n` composed calls, the `i`-th call
happening at time `times i`. -/
def run_calls (tool_name : String) (beh : Nat → Except PyExc String)
    (times : Nat → Nat) : Nat → WrapSim
  | 0 => WrapSim.init
  | n + 1 =>
    (composed_call tool_name beh (times n) (run_calls tool_name beh times n)).2

/-- A tool that raises an ordinary (non-`RetryError`) exception on every
underlying invocation. -/
def AlwaysRaises (beh : Nat → Except PyExc String) : Prop :=
  ∀ k, ∃ m, beh k = .error ⟨false, m⟩

/-! ## Reflector tool-failure detection (`sre_agent/graph_builder.py:272-304`) -/

/-- Python's `x or y` on optional findings strings (`None` and `""` falsy). -/
def pyOrStr (a b : Option String) : Option String :=
  match a with
  | some s => if s.isEmpty then b else some s
  | none => b

/-- `d.get(k)` on the `agent_results` dict. -/
def dictGet (d : List (String × String)) (k : String) : Option String :=
  (d.find? (fun kv => kv.1 == k)).map (fun kv => kv.2)

/-- The per-bucket test `if findings and "TOOL UNAVAILABLE" in str(findings)`. -/
def findingFailed (f : Option String) : Bool :=
  match f with
  | some s => !s.isEmpty && strContains s "TOOL UNAVAILABLE"
  | none => false

/-- The `tool_failures` list built by `_reflector_node`
(graph_builder.py:279-289), from the three findings buckets. -/
def detect_tool_failures (logs_findings infra_findings code_findings : Option String) :
    List String :=
  (if findingFailed logs_findings then ["Logs"] else []) ++
    (if findingFailed infra_findings then ["Infrastructure/Metrics"] else []) ++
      (if findingFailed code_findings then ["GitHub/Code"] else [])

/-- `tool_failures` as computed from `agent_results` (graph_builder.py:272-289):
infra findings are `kubernetes_agent or metrics_agent`. -/
def reflector_tool_failures (agent_results : List (String × String)) : List String :=
  let infra_findings := pyOrStr (dictGet agent_results "kubernetes_agent")
    (dictGet agent_results "metrics_agent")
  let logs_findings := dictGet agent_results "logs_agent"
  let code_findings := dictGet agent_results "github_agent"
  detect_tool_failures logs_findings infra_findings code_findings

/-- The `tool_status` block interpolated into the reflection prompt
(graph_builder.py:291-303): empty unless some failure was detected. -/
def tool_status_message (failures : List String) : String :=
  if failures.isEmpty then ""
  else
    "TOOL UNAVAILABILITY NOTICE: The following tools failed after retries and are unavailable: " ++
      String.intercalate ", " failures

/-- A concrete tool behaviour for exercising the composed stack: every
underlying invocation raises an ordinary exception. -/
def behC2 : Nat → Except PyExc String := fun _ => .error ⟨false, "connection refused"⟩

/-- Concrete wall-clock times for the composed calls (all immediate). -/
def timesC2 : Nat → Nat := fun _ => 0

/-- A concrete always-raising behaviour for the retry-exhaustion scenario. -/
def behC3 : Nat → Except PyExc String := fun _ => .error ⟨false, "read timeout"⟩

/-- Scenario S3's `agent_results`: the logs agent's slot holds the structured
tool error that retry exhaustion actually produces (see `safeInvokeR`). -/
def agent_resultsS3 : List (String × String) :=
  [("kubernetes_agent", "pods healthy, no restarts"),
   ("metrics_agent", "cpu 95% on api deployment"),
   ("logs_agent",
     ToolError.to_agent_response
       ⟨"get_error_logs", "connection refused", 1, true,
        "Single failure in get_error_logs. Consider retrying manually."⟩)]

/-! ## Session state store (`sre_agent/redis_state_store.py`)

The store is modelled with an availability flag (`redis_client is None` or
ping failing), a failure flag (operations raising, each caught and turned
into a soft failure by the source), the set of `CLUSTER_LOCK:{id}` keys and
the `sre_agent:approval:{id}` session snapshots. -/

/-- The engine-state fields the approval flow reads and writes.  (`next` is
the routing field consumed by the graph; `approval_status` gates the
executor.) -/
structure EngineState where
  approval_status : String
  next : String
  investigation_count : Nat
  ooda_phase : String
deriving DecidableEq

/-- A stored session snapshot: the dict persisted under
`sre_agent:approval:{session_id}`; its `"state"` entry may be missing. -/
structure Snapshot where
  state : Option EngineState
deriving DecidableEq

/-- The Redis-backed state store. -/
structure RedisSim where
  available : Bool
  fails : Bool
  locks : List String
  sessions : List (String × Snapshot)
deriving DecidableEq

/-- `RedisStateStore.get` (redis_state_store.py:133-167): `None` when the
store is unavailable, an operation raises, or the key is absent. -/
def RedisSim.get_session (r : RedisSim) (key : String) : Option Snapshot :=
  if !r.available then none
  else if r.fails then none
  else (r.sessions.find? (fun kv => kv.1 == key)).map (fun kv => kv.2)

/-- `RedisStateStore.delete` (redis_state_store.py:169-197): soft failure
when unavailable or raising; true iff a key was removed. -/
def RedisSim.delete_session (r : RedisSim) (key : String) : Bool × RedisSim :=
  if !r.available then (false, r)
  else if r.fails then (false, r)
  else (r.sessions.any (fun kv => kv.1 == key),
    { r with sessions := r.sessions.filter (fun kv => kv.1 != key) })

/-- `RedisStateStore.set_cluster_lock` (redis_state_store.py:272-285). -/
def RedisSim.set_cluster_lock (r : RedisSim) (cluster_id : String)
    (locked : Bool) : Bool × RedisSim :=
  if !r.available then (false, r)
  else if r.fails then (false, r)
  else if locked then
    (true, { r with locks :=
      if r.locks.contains cluster_id then r.locks else r.locks ++ [cluster_id] })
  else (true, { r with locks := r.locks.filter (fun x => x != cluster_id) })

/-- `RedisStateStore.is_cluster_locked` (redis_state_store.py:287-296):
`false` when the store is unavailable, `false` when the lookup raises (the
`except` branch), otherwise the existence of the `CLUSTER_LOCK` key. -/
def RedisSim.is_cluster_locked (r : RedisSim) (cluster_id : String) : Bool :=
  if !r.available then false
  else if r.fails then false
  else r.locks.contains cluster_id

/-! ## Approval resume (`sre_agent/agent_runtime.py:427-516`) and the graph
entry (`sre_agent/graph_builder.py:69-104, 1068-1072`) -/

/-- The outcome of `approve_remediation`: 404 when no snapshot is pending,
400 when the snapshot has no `"state"`, otherwise the graph is re-invoked
with the rehydrated state, entering at `entry_node`. -/
inductive ApproveOutcome where
  | notFound
  | badState
  | resumed (rehydrated : EngineState) (entry_node : String)
deriving DecidableEq

/-- The compiled graph's entry point (`workflow.set_entry_point("prepare")`,
graph_builder.py:1068); `agent_graph.astream(current_state)` always starts
there. -/
def graph_entry_node : String := "prepare"

/-- The state updates returned by `_prepare_initial_state`
(graph_builder.py:91-104), restricted to the fields of `EngineState`: the
prepare node routes to the investigation swarm, resets the phase and the
investigation counter, and leaves `approval_status` unwritten. -/
def prepare_updates (s : EngineState) : EngineState :=
  { s with next := "investigation_swarm", ooda_phase := "OBSERVE",
           investigation_count := 0 }

/-- `approve_remediation` (agent_runtime.py:427-516): fetch the pending
snapshot (404 if absent), require its state (400 if missing), set
`approval_status = "APPROVED"` and `next = "executor"`, delete the snapshot
from the store, then re-invoke the graph with the rehydrated state — which
enters at `graph_entry_node`. -/
def approve_remediation (r : RedisSim) (session_id : String) :
    ApproveOutcome × RedisSim :=
  match r.get_session session_id with
  | none => (.notFound, r)
  | some snap =>
    match snap.state with
    | none => (.badState, r)
    | some st =>
      let st := { st with approval_status := "APPROVED", next := "executor" }
      let r := (r.delete_session session_id).2
      (.resumed st graph_entry_node, r)

/-! ## Executor entry (`sre_agent/graph_builder.py:1197-1259`) -/

/-- The engine metadata the executor entry reads. -/
structure ExecMeta where
  cluster_id : Option String
  tools : List String
deriving DecidableEq

/-- The executor's view of the shared state. -/
structure ExecState where
  remediation_plan : Option (List RemediationAction)
  approval_status : Option String
  metadata : ExecMeta
deriving DecidableEq

/-- How the executor entry resolves, before the per-action loop. -/
inductive ExecOutcome where
  | aborted
  | notApproved
  | noPlan
  | noTools
  | executed (actions : List RemediationAction)
deriving DecidableEq

/-- Python truthiness of `metadata.get("cluster_id")`. -/
def cidTruthy : Option String → Bool
  | none => false
  | some s => !s.isEmpty

/-- The break-glass lookup guard `cluster_id_str and
storage.is_cluster_locked(cluster_id_str)` (graph_builder.py:1218): the
lock is consulted only when the cluster id is truthy. -/
def executor_lock_hit (st : ExecState) (r : RedisSim) : Bool :=
  match st.metadata.cluster_id with
  | none => false
  | some cid => if cid.isEmpty then false else r.is_cluster_locked cid

/-- The executor entry (graph_builder.py:1204-1259): break-glass check
first, then the approval check, then plan and tool availability; only then
the per-action loop over the plan's actions.  The second component records
whether `is_cluster_locked` was consulted. -/
def executor_entry (st : ExecState) (r : RedisSim) : ExecOutcome × Bool :=
  let consulted := cidTruthy st.metadata.cluster_id
  if executor_lock_hit st r then (.aborted, consulted)
  else if st.approval_status != some "APPROVED" then (.notApproved, consulted)
  else
    match st.remediation_plan with
    | none => (.noPlan, consulted)
    | some actions =>
      if st.metadata.tools.isEmpty then (.noTools, consulted)
      else (.executed actions, consulted)

/-! ## The OODA investigation loop (`sre_agent/graph_builder.py`)

The nodes and edges of the compiled graph that bear on the
re-investigation bound, as a transition relation.  The swarm node of the
built graph is `investigation_swarm_with_agents`, which always injects the
agent instances into the metadata (graph_builder.py:1017-1046), so the
increment branch of `_investigation_swarm` is the one taken. -/

/-- The graph nodes on the investigation path. -/
inductive NodeName where
  | prepare
  | investigation_swarm
  | reflector
  | planner
  | policy_gate
  | executor
  | verifier
  | aggregate
deriving DecidableEq

/-- Modelled from the spec: `sre_agent/agent_state.py` (the
`ReflectorAnalysis` pydantic model) is not among the sources; spec §4.5
gives its fields.  Only the two routing fields are consumed by the
reflector's router. -/
structure ReflectorAnalysis where
  requires_deeper_investigation : Bool
  recommended_agents : List String
deriving DecidableEq

/-- The loop-relevant projection of the shared investigation state. -/
structure OodaState where
  node : NodeName
  investigation_count : Nat
  ooda_phase : String
  has_findings : Bool
deriving DecidableEq

/-- A fresh invocation of the graph: entry at `prepare`; an absent
`investigation_count` reads as 0 (`state.get("investigation_count", 0)`). -/
def ooda_init : OodaState := ⟨.prepare, 0, "OBSERVE", false⟩

/-- `_prepare_initial_state` (graph_builder.py:69-104) followed by the
unconditional edge `prepare → investigation_swarm` (graph_builder.py:1072). -/
def prepare_step (s : OodaState) : OodaState :=
  { s with node := .investigation_swarm, investigation_count := 0,
           ooda_phase := "OBSERVE", has_findings := false }

/-- `_investigation_swarm` (graph_builder.py:107-251) followed by the edge
`investigation_swarm → reflector`: when the agent instances are present in
the metadata (always, in the built graph) the swarm gathers findings and
increments `investigation_count` by one; the defensive fallback branch
(graph_builder.py:140-154) leaves the counter unchanged. -/
def investigation_swarm_step (agents_available : Bool) (s : OodaState) : OodaState :=
  if agents_available then
    { s with node := .reflector, ooda_phase := "ORIENT", has_findings := true,
             investigation_count := s.investigation_count + 1 }
  else
    { s with node := .reflector, ooda_phase := "ORIENT", has_findings := true }

/-- `_reflector_node` (graph_builder.py:254-417) followed by the conditional
edge `reflector → {investigation_swarm, planner}`: with no findings at all,
or on an oracle failure (the fallback analysis), route to the planner;
otherwise loop back to the swarm exactly when the analysis requires deeper
investigation with a non-empty agent list and `investigation_count < 3`. -/
def reflector_step (oracle : Except String ReflectorAnalysis) (s : OodaState) :
    OodaState :=
  if !s.has_findings then { s with node := .planner, ooda_phase := "DECIDE" }
  else
    match oracle with
    | .ok analysis =>
      if analysis.requires_deeper_investigation = true
          ∧ analysis.recommended_agents ≠ [] ∧ s.investigation_count < 3 then
        { s with node := .investigation_swarm, ooda_phase := "OBSERVE" }
      else { s with node := .planner, ooda_phase := "DECIDE" }
    | .error _ => { s with node := .planner, ooda_phase := "DECIDE" }

/-- One transition of the built graph on the investigation path.  The nodes
after the reflector (planner, policy gate, executor, verifier) never write
`investigation_count` (its only writers are graph_builder.py:103 and
graph_builder.py:246) and never route back to the swarm (their outgoing
edges are planner → policy_gate, policy_gate → {executor, aggregate},
executor → verifier, verifier → aggregate, aggregate → END). -/
inductive OodaStep : OodaState → OodaState → Prop where
  | prepare (s : OodaState) (h : s.node = .prepare) :
      OodaStep s (prepare_step s)
  | swarm (s : OodaState) (h : s.node = .investigation_swarm) :
      OodaStep s (investigation_swarm_step true s)
  | reflector (s : OodaState) (oracle : Except String ReflectorAnalysis)
      (h : s.node = .reflector) : OodaStep s (reflector_step oracle s)
  | planner (s t : OodaState) (h : s.node = .planner)
      (ht : t.node = .policy_gate)
      (hc : t.investigation_count = s.investigation_count) : OodaStep s t
  | policy_gate (s t : OodaState) (h : s.node = .policy_gate)
      (ht : t.node = .executor ∨ t.node = .aggregate)
      (hc : t.investigation_count = s.investigation_count) : OodaStep s t
  | executor (s t : OodaState) (h : s.node = .executor)
      (ht : t.node = .verifier)
      (hc : t.investigation_count = s.investigation_count) : OodaStep s t
  | verifier (s t : OodaState) (h : s.node = .verifier)
      (ht : t.node = .aggregate)
      (hc : t.investigation_count = s.investigation_count) : OodaStep s t

/-- Reachability from the fresh graph invocation. -/
def OodaReachable (s : OodaState) : Prop :=
  Relation.ReflTransGen OodaStep ooda_init s

/-! ## Jobs (`backend/crud.py`, `sre_agent/api/v1/jobs.py`) -/

/-- `pending | running | completed | failed`. -/
inductive JobStatus where
  | pending
  | running
  | completed
  | failed
deriving DecidableEq

/-- A row of the `jobs` table (backend/models.py via crud.py); timestamps
are seconds. -/
structure Job where
  id : Nat
  cluster_id : Nat
  job_type : String
  payload : String
  status : JobStatus
  result : Option String
  logs : Option String
  created_at : Nat
  started_at : Option Nat
  completed_at : Option Nat
deriving DecidableEq

/-- The `JobStatusUpdate` request body (`{status, result?, logs?}`). -/
structure JobStatusUpdate where
  status : JobStatus
  result : Option String
  logs : Option String
deriving DecidableEq

/-- A row of the `clusters` table, as the job routes read it. -/
structure Cluster where
  id : Nat
  org_id : Nat
  token : String
deriving DecidableEq

/-- `get_cluster_by_token` (crud.py:62-64). -/
def get_cluster_by_token (clusters : List Cluster) (token : String) :
    Option Cluster :=
  clusters.find? (fun c => c.token == token)

/-- `get_cluster_by_id` (crud.py:66-68). -/
def get_cluster_by_id (clusters : List Cluster) (cluster_id : Nat) :
    Option Cluster :=
  clusters.find? (fun c => c.id == cluster_id)

/-- `get_job_by_id` (crud.py:133-135). -/
def get_job_by_id (db : List Job) (job_id : Nat) : Option Job :=
  db.find? (fun j => j.id == job_id)

/-- Python truthiness of an optional string (`None` and `""` falsy). -/
def optTruthy : Option String → Bool
  | none => false
  | some s => !s.isEmpty

/-- `if status_update.result: job.result = status_update.result`
(crud.py:143-144). -/
def applyResult (u : JobStatusUpdate) (j : Job) : Job :=
  if optTruthy u.result then { j with result := u.result } else j

/-- `if status_update.logs: job.logs = (job.logs or "") + status_update.logs`
(crud.py:145-147). -/
def applyLogs (u : JobStatusUpdate) (j : Job) : Job :=
  if optTruthy u.logs then
    { j with logs := some ((j.logs.getD "") ++ (u.logs.getD "")) }
  else j

/-- The timestamp transitions of `update_job_status` (crud.py:149-152):
`started_at` on the first `running`, `completed_at` on a terminal status. -/
def applyTimestamps (now : Nat) (u : JobStatusUpdate) (j : Job) : Job :=
  if u.status = .running ∧ j.started_at = none then
    { j with started_at := some now }
  else if u.status = .completed ∨ u.status = .failed then
    { j with completed_at := some now }
  else j

/-- The full per-row effect of `update_job_status` (crud.py:137-156): the
requested status is applied unconditionally — there is no guard on the
job's current (possibly terminal) status. -/
def apply_status_update (now : Nat) (u : JobStatusUpdate) (j : Job) : Job :=
  applyTimestamps now u (applyLogs u (applyResult u { j with status := u.status }))

/-- `update_job_status` (crud.py:137-156) over the job table. -/
def update_job_status (db : List Job) (now : Nat) (job_id : Nat)
    (u : JobStatusUpdate) : Option Job × List Job :=
  match get_job_by_id db job_id with
  | none => (none, db)
  | some j =>
    let j' := apply_status_update now u j
    (some j', db.map (fun k => if k.id == job_id then j' else k))

/-- The running minimum of `ORDER BY created_at ASC LIMIT 1`: the earliest
`created_at`, ties resolved to the earliest-listed row. -/
def oldestBy (j : Job) : List Job → Job
  | [] => j
  | k :: rest =>
    if k.created_at < j.created_at then oldestBy k rest else oldestBy j rest

/-- `get_pending_job_for_cluster` (crud.py:124-131): the oldest `pending`
job of the cluster, or none.  A pure SELECT — the table is untouched. -/
def get_pending_job_for_cluster (db : List Job) (cluster_id : Nat) :
    Option Job :=
  match db.filter (fun j =>
      j.cluster_id == cluster_id && j.status == JobStatus.pending) with
  | [] => none
  | j :: rest => some (oldestBy j rest)

/-- `GET /clusters/jobs/pending` (jobs.py:88-95): resolve the bearer token
to a cluster (401 otherwise), then the pure pending-job query; the job
table is returned unchanged alongside the response. -/
def get_pending_job_route (clusters : List Cluster) (db : List Job)
    (token : String) : Except Nat (Option Job × List Job) :=
  match get_cluster_by_token clusters token with
  | none => .error 401
  | some c => .ok (get_pending_job_for_cluster db c.id, db)

/-- `POST /clusters/jobs/{job_id}/status` (jobs.py:98-111): 401 on a bad
token, 404 when the job is absent or owned by another cluster, otherwise
the unconditional status update. -/
def update_job_status_route (clusters : List Cluster) (db : List Job)
    (now : Nat) (token : String) (job_id : Nat) (u : JobStatusUpdate) :
    Except Nat (Job × List Job) :=
  match get_cluster_by_token clusters token with
  | none => .error 401
  | some cluster =>
    match get_job_by_id db job_id with
    | none => .error 404
    | some j =>
      if j.cluster_id == cluster.id then
        match update_job_status db now job_id u with
        | (some j', db') => .ok (j', db')
        | (none, _) => .error 404
      else .error 404

/-! ## Cluster lock and audit routes (`sre_agent/api/v1/clusters.py`) -/

/-- An authenticated user, resolved by `get_current_user_and_org`. -/
structure User where
  email : String
  org_id : Nat
deriving DecidableEq

/-- A row of the `audit_events` table (crud.py `create_audit_event`). -/
structure AuditEvent where
  cluster_id : Nat
  action_type : String
  resource_target : String
  outcome : String
  actor_type : String
  actor_id : String
  details : String
deriving DecidableEq

/-- The relational backend as the cluster routes touch it. -/
structure BackendDb where
  clusters : List Cluster
  audit_events : List AuditEvent
deriving DecidableEq

/-- `GET /clusters/{cluster_id}/health` (clusters.py:54-70): the ownership
check — 404 when the cluster is absent *or owned by another organization*. -/
def get_cluster_health_route (db : BackendDb) (user : User)
    (cluster_id : Nat) : Except Nat Cluster :=
  match get_cluster_by_id db.clusters cluster_id with
  | none => .error 404
  | some cluster =>
    if cluster.org_id == user.org_id then .ok cluster else .error 404

/-- `GET /clusters/{cluster_id}/lock` (clusters.py:81-91): reads the lock
flag for any authenticated user — the handler performs no cluster lookup
and no ownership check. -/
def get_cluster_lock_route (r : RedisSim) (_user : User) (cluster_id : Nat) :
    Except Nat Bool :=
  .ok (r.is_cluster_locked (toString cluster_id))

/-- `POST /clusters/{cluster_id}/lock` (clusters.py:93-122): sets the
break-glass lock and writes an `EMERGENCY_LOCK_TOGGLE` audit event — with
no cluster lookup and no ownership check; 500 only on a store failure. -/
def set_cluster_lock_route (db : BackendDb) (r : RedisSim) (user : User)
    (cluster_id : Nat) (payload_locked : Option Bool) :
    Except Nat Bool × BackendDb × RedisSim :=
  let locked := payload_locked.getD false
  let sr := r.set_cluster_lock (toString cluster_id) locked
  if sr.1 = false then (.error 500, db, sr.2)
  else
    (.ok locked,
      { db with audit_events := db.audit_events ++
        [⟨cluster_id, "EMERGENCY_LOCK_TOGGLE", "cluster", "SUCCESS", "USER",
          user.email, "Lock set to " ++ (if locked then "True" else "False")⟩] },
      sr.2)

/-- `GET /clusters/{cluster_id}/audit` (clusters.py:124-133) with
`get_audit_events` (crud.py:191-199): most recent first, limit default 50 —
again with no ownership check. -/
def get_cluster_audit_route (db : BackendDb) (_user : User)
    (cluster_id : Nat) (limit : Nat) : Except Nat (List AuditEvent) :=
  .ok (((db.audit_events.filter
    (fun e => e.cluster_id == cluster_id)).reverse).take limit)

/-- A concrete store holding one paused session: incident `inc-1`, pending
approval, routed to `aggregate` after two swarm visits. -/
def rC5 : RedisSim :=
  ⟨true, false, [], [("inc-1", ⟨some ⟨"PENDING", "aggregate", 2, "ACT"⟩⟩)]⟩

/-- A concrete executor state: an approved single-action plan with tools,
bound to cluster `cluster-1`. -/
def stC10 : ExecState :=
  ⟨some [⟨"restart", "pod-x", []⟩], some "APPROVED",
    ⟨some "cluster-1", ["restart_deployment"]⟩⟩

/-- A concrete unreachable store (connection refused at init). -/
def rC10 : RedisSim := ⟨false, false, [], []⟩

/-- A cluster owned by organization 1. -/
def orgA_cluster : Cluster := ⟨1, 1, "cl_a"⟩

/-- An authenticated user of organization 2 — *not* the owner of
`orgA_cluster`. -/
def crossOrgUser : User := ⟨"mallory@org-b.example", 2⟩

/-- A backend holding only organization 1's cluster. -/
def dbC6 : BackendDb := ⟨[orgA_cluster], []⟩

/-- A healthy, empty lock store. -/
def rC6 : RedisSim := ⟨true, false, [], []⟩

/-- A job already in the terminal state `completed`. -/
def jobC7 : Job :=
  ⟨7, 1, "investigation", "{}", .completed, some "done", none, 100,
    some 110, some 120⟩

/-- The cluster table owning `jobC7`. -/
def clustersC7 : List Cluster := [⟨1, 1, "cl_tok"⟩]

/-- The cluster table for the claim-pending scenario. -/
def clustersC9 : List Cluster := [⟨1, 1, "cl_tok"⟩]

/-- A job table: cluster 1 has two pending jobs (created at 50 and 30) and a
completed one; cluster 2 has an older pending job that must not be
returned. -/
def dbC9 : List Job :=
  [⟨1, 1, "investigation", "{}", .pending, none, none, 50, none, none⟩,
   ⟨2, 1, "remediation", "{}", .pending, none, none, 30, none, none⟩,
   ⟨3, 2, "investigation", "{}", .pending, none, none, 10, none, none⟩,
   ⟨4, 1, "investigation", "{}", .completed, some "ok", none, 5, some 6, some 9⟩]

/-! ### End of definitions -/

end SRE

/-! ## Theorems -/

namespace SRE

/-- C1 counterexample: on production, with a maximal risk score, an action
whose type is `delete_pod` — a type containing the substring "delete" — is
*allowed* by the policy gate: rule 2's membership test
`action_type in ["delete", "patch"]` restricts the rule to the exact string
"delete", so `delete_pod` falls through to the default-allow rule 6. -/
theorem C1_counterexample :
    (evaluate_action ⟨"delete_pod", "pod-x", []⟩ "production" 9).1 = true := by
  decide

/-- C1 (amended): in a production environment the policy gate blocks exactly
the action type `"delete"` (case-insensitively) unconditionally; an action
type that merely contains "delete", such as `delete_pod`, matches no
blocking rule and is allowed by the production default rule, regardless of
risk score and parameters. -/
theorem C1_theorem (a : RemediationAction) (env : String) (rs : ℚ)
    (henv : strLower env = "production") (ha : strLower a.action_type = "delete") :
    (evaluate_action a env rs).1 = false ∧
    ∀ (t : String) (ps : Params),
      (evaluate_action ⟨"delete_pod", t, ps⟩ env rs).1 = true := by
  constructor
  · simp only [evaluate_action, henv, ha]
    rfl
  · intro t ps
    simp only [evaluate_action, henv]
    rfl

/-- C1 witness: the amended theorem at the concrete action type `delete` on
environment `production`. -/
theorem C1_witness :
    (evaluate_action ⟨"delete", "deployment/api", []⟩ "production" 0).1 = false ∧
    ∀ (t : String) (ps : Params),
      (evaluate_action ⟨"delete_pod", t, ps⟩ "production" 0).1 = true :=
  C1_theorem ⟨"delete", "deployment/api", []⟩ "production" 0 (by decide) (by decide)

/-- Tenacity with `reraise=True` on an always-raising tool: all `n + 1`
attempts are made and the *last attempt's ordinary exception* propagates
(never a `RetryError`). -/
lemma tenacity_alwaysRaises (beh : Nat → Except PyExc String)
    (h : AlwaysRaises beh) :
    ∀ n c, ∃ m, tenacityInvoke beh (n + 1) c = (.error ⟨false, m⟩, c + (n + 1)) := by
  intro n
  induction n with
  | zero =>
    intro c
    obtain ⟨m, hm⟩ := h c
    exact ⟨m, by simp [tenacityInvoke, hm]⟩
  | succ k ih =>
    intro c
    obtain ⟨m0, hm0⟩ := h c
    obtain ⟨m, hm⟩ := ih (c + 1)
    refine ⟨m, ?_⟩
    have hstep : tenacityInvoke beh (k + 1 + 1) c = tenacityInvoke beh (k + 1) (c + 1) := by
      rw [tenacityInvoke.eq_def]
      simp [hm0]
    rw [hstep, hm]
    simp only [Prod.mk.injEq]
    exact ⟨trivial, by omega⟩

/-- The retry wrapper on a tool whose every invocation raises: three real
attempts are made, the reraised exception lands in the `except Exception`
branch, and the `ToolError` reports `retry_count = 1, is_recoverable = true`. -/
lemma safeInvokeR_alwaysRaises (tool_name : String)
    (beh : Nat → Except PyExc String) (h : AlwaysRaises beh) (c : Nat) :
    ∃ m, safeInvokeR tool_name beh c =
      (Sum.inr ⟨tool_name, m, 1, true,
        "Single failure in " ++ tool_name ++ ". Consider retrying manually."⟩, c + 3) := by
  obtain ⟨m, hm⟩ := tenacity_alwaysRaises beh h 2 c
  exact ⟨m, by simp [safeInvokeR, MAX_ATTEMPTS, hm]⟩

/-- One composed call on an always-raising tool, starting from a closed
breaker: the retry layer swallows the failures into an error string, so the
circuit-breaker layer records a *success*, stays at `CBState.init`, and the
underlying tool is invoked three more times. -/
lemma composed_call_alwaysRaises (tool_name : String)
    (beh : Nat → Except PyExc String) (h : AlwaysRaises beh) (now : Nat)
    (s : WrapSim) (hcb : s.cb = CBState.init) :
    ∃ r, composed_call tool_name beh now s =
      (.ok r, ⟨CBState.init, s.invocations + 3, s.audit ++ [⟨tool_name, "SUCCESS"⟩]⟩) := by
  obtain ⟨m, hm⟩ := safeInvokeR_alwaysRaises tool_name beh h s.invocations
  refine ⟨(ToolError.mk tool_name m 1 true
    ("Single failure in " ++ tool_name ++ ". Consider retrying manually.")).to_agent_response, ?_⟩
  simp [composed_call, cb_invoke, check_circuit_breaker, hcb, CBState.init,
    safe_invoke, hm, record_success]

/-- After `n` composed calls on an always-raising tool the breaker is still
closed with zero recorded failures and the tool has been invoked `3 * n`
times; the audit log holds one `SUCCESS` row per call. -/
lemma run_calls_alwaysRaises (tool_name : String)
    (beh : Nat → Except PyExc String) (h : AlwaysRaises beh) (times : Nat → Nat) :
    ∀ n, run_calls tool_name beh times n =
      ⟨CBState.init, 3 * n, List.replicate n ⟨tool_name, "SUCCESS"⟩⟩ := by
  intro n
  induction n with
  | zero => rfl
  | succ k ih =>
    obtain ⟨r, hr⟩ := composed_call_alwaysRaises tool_name beh h (times k)
      (run_calls tool_name beh times k) (by rw [ih])
    have hs : run_calls tool_name beh times (k + 1)
        = (composed_call tool_name beh (times k) (run_calls tool_name beh times k)).2 := rfl
    rw [hs, hr]
    simp only [ih, WrapSim.mk.injEq]
    refine ⟨trivial, by omega, ?_⟩
    simp [List.replicate_succ']

/-- C2 (code bug): in the composed stack built by `wrap_all_tools_with_retry`,
the retry layer returns error *strings* instead of raising, so the
circuit-breaker layer's failure branch is unreachable: on a tool whose every
invocation raises, after any number `n` of consecutive failing calls the
breaker is still closed with zero recorded failures, the `(n + 1)`-st call
(the 6th for `n = 5`) is still forwarded — the underlying tool is invoked
three more times — and returns normally rather than a synthetic
circuit-breaker error. -/
theorem C2_theorem (tool_name : String) (beh : Nat → Except PyExc String)
    (times : Nat → Nat) (h : AlwaysRaises beh) (n : Nat) :
    (run_calls tool_name beh times n).cb = CBState.init ∧
    (run_calls tool_name beh times n).invocations = 3 * n ∧
    (composed_call tool_name beh (times n)
        (run_calls tool_name beh times n)).2.invocations = 3 * n + 3 ∧
    ∃ r, (composed_call tool_name beh (times n)
        (run_calls tool_name beh times n)).1 = .ok r := by
  have hrun := run_calls_alwaysRaises tool_name beh h times n
  obtain ⟨r, hr⟩ := composed_call_alwaysRaises tool_name beh h (times n)
    (run_calls tool_name beh times n) (by rw [hrun])
  refine ⟨by rw [hrun], by rw [hrun], ?_, ⟨r, by rw [hr]⟩⟩
  rw [hr, hrun]

/-- C2 witness: five consecutive failing calls, then the 6th: the breaker is
still closed and the 6th call drives the underlying tool from 15 to 18
invocations. -/
theorem C2_witness :
    AlwaysRaises behC2 ∧
    ((run_calls "get_pod_status" behC2 timesC2 5).cb = CBState.init ∧
      (run_calls "get_pod_status" behC2 timesC2 5).invocations = 3 * 5 ∧
      (composed_call "get_pod_status" behC2 (timesC2 5)
          (run_calls "get_pod_status" behC2 timesC2 5)).2.invocations = 3 * 5 + 3 ∧
      ∃ r, (composed_call "get_pod_status" behC2 (timesC2 5)
          (run_calls "get_pod_status" behC2 timesC2 5)).1 = .ok r) :=
  ⟨fun _ => ⟨"connection refused", rfl⟩,
    C2_theorem "get_pod_status" behC2 timesC2 (fun _ => ⟨"connection refused", rfl⟩) 5⟩

/-- C3 (code bug): a tool invocation that fails on all three retry attempts
*returns* (never raises), but because `reraise=True` bypasses the
`except RetryError` branch, the structured tool error carries
`retry_count = 1` and `is_recoverable = true` — not `retry_count = 3` and
`is_recoverable = false` — and its serialisation reads "failed after 1
attempts"; the suggestion string is the single-failure one. -/
theorem C3_theorem (tool_name : String) (beh : Nat → Except PyExc String)
    (c : Nat) (h : AlwaysRaises beh) :
    ∃ m, safeInvokeR tool_name beh c =
        (Sum.inr ⟨tool_name, m, 1, true,
          "Single failure in " ++ tool_name ++ ". Consider retrying manually."⟩, c + 3) ∧
      safe_invoke tool_name beh c =
        (ToolError.to_agent_response ⟨tool_name, m, 1, true,
          "Single failure in " ++ tool_name ++ ". Consider retrying manually."⟩, c + 3) := by
  obtain ⟨m, hm⟩ := safeInvokeR_alwaysRaises tool_name beh h c
  refine ⟨m, hm, ?_⟩
  simp [safe_invoke, hm]

/-- C3 witness: the retry-exhausted wrapper at a concrete failing tool. -/
theorem C3_witness :
    AlwaysRaises behC3 ∧
    ∃ m, safeInvokeR "get_error_logs" behC3 0 =
        (Sum.inr ⟨"get_error_logs", m, 1, true,
          "Single failure in get_error_logs. Consider retrying manually."⟩, 0 + 3) ∧
      safe_invoke "get_error_logs" behC3 0 =
        (ToolError.to_agent_response ⟨"get_error_logs", m, 1, true,
          "Single failure in get_error_logs. Consider retrying manually."⟩, 0 + 3) :=
  ⟨fun _ => ⟨"read timeout", rfl⟩,
    C3_theorem "get_error_logs" behC3 0 (fun _ => ⟨"read timeout", rfl⟩)⟩

/-- The exact serialisation the agent receives after a full retry exhaustion
on `behC3`: it reads "failed after 1 attempts". -/
lemma safe_invoke_exhaustion_literal :
    safe_invoke "get_error_logs" behC3 0 =
      ("Error: Tool get_error_logs failed after 1 attempts. Proceeding without this data. (Error: read timeout)",
        3) := by
  decide

set_option maxRecDepth 8192 in
/-- C4 (code bug): the reflector's detector scans findings for the marker
"TOOL UNAVAILABLE", but the structured tool error produced by retry
exhaustion serialises as "Error: Tool ... failed after ... attempts. ...",
which never contains that marker: with the logs agent's slot holding exactly
that error, `tool_failures` is empty and the prompt carries no
"TOOL UNAVAILABILITY NOTICE". -/
theorem C4_theorem :
    reflector_tool_failures agent_resultsS3 = [] ∧
    tool_status_message (reflector_tool_failures agent_resultsS3) = "" ∧
    strContains
      (ToolError.to_agent_response
        ⟨"get_error_logs", "connection refused", 1, true,
         "Single failure in get_error_logs. Consider retrying manually."⟩)
      "TOOL UNAVAILABLE" = false := by
  refine ⟨by decide, by decide, by decide⟩

/-- C5 counterexample: approving the concrete paused session `inc-1`
rehydrates the snapshot with `approval_status = APPROVED` and
`next = executor` — but the graph it re-invokes enters at its entry point
`prepare`, not at `executor`, and the prepare node's update overwrites
`next` with `investigation_swarm`. -/
theorem C5_counterexample :
    (approve_remediation rC5 "inc-1").1 =
      ApproveOutcome.resumed ⟨"APPROVED", "executor", 2, "ACT"⟩ "prepare" ∧
    graph_entry_node ≠ "executor" ∧
    (prepare_updates ⟨"APPROVED", "executor", 2, "ACT"⟩).next = "investigation_swarm" := by
  refine ⟨by decide, by decide, by decide⟩

/-- C5 (amended): for every paused investigation, `approve_remediation`
fetches the persisted snapshot, sets `approval_status = APPROVED` and
`next = executor` in the rehydrated state, deletes the snapshot from the
session store — approval is single-shot: the snapshot is gone and a second
approve returns not-found — and re-invokes the state machine with the
rehydrated state; the re-entry however happens at the graph's entry node
`prepare` (whose update resets `next` to `investigation_swarm`), not at
`EXECUTOR`. -/
theorem C5_theorem (r : RedisSim) (sid : String) (st : EngineState)
    (havail : r.available = true) (hfails : r.fails = false)
    (hsnap : r.get_session sid = some ⟨some st⟩) :
    approve_remediation r sid =
      (.resumed { st with approval_status := "APPROVED", next := "executor" }
        graph_entry_node, (r.delete_session sid).2) ∧
    ((r.delete_session sid).2).get_session sid = none ∧
    (approve_remediation (r.delete_session sid).2 sid).1 = .notFound ∧
    (prepare_updates
        { st with approval_status := "APPROVED", next := "executor" }).next
      = "investigation_swarm" := by
  have hdel2 : (r.delete_session sid).2
      = { r with sessions := r.sessions.filter (fun kv => kv.1 != sid) } := by
    simp [RedisSim.delete_session, havail, hfails]
  have hdel : ((r.delete_session sid).2).get_session sid = none := by
    rw [hdel2]
    simp only [RedisSim.get_session, havail, hfails, Bool.not_true,
      Bool.false_eq_true, if_false, Option.map_eq_none', List.find?_eq_none]
    intro kv hkv
    have := (List.mem_filter.mp hkv).2
    simpa using this
  refine ⟨?_, hdel, ?_, rfl⟩
  · simp [approve_remediation, hsnap]
  · simp [approve_remediation, hdel]

/-- C5 witness: the amended theorem at the concrete paused store `rC5`. -/
theorem C5_witness :
    approve_remediation rC5 "inc-1" =
      (.resumed ⟨"APPROVED", "executor", 2, "ACT"⟩ graph_entry_node,
        (rC5.delete_session "inc-1").2) ∧
    ((rC5.delete_session "inc-1").2).get_session "inc-1" = none ∧
    (approve_remediation (rC5.delete_session "inc-1").2 "inc-1").1 = .notFound ∧
    (prepare_updates ⟨"APPROVED", "executor", 2, "ACT"⟩).next = "investigation_swarm" :=
  C5_theorem rC5 "inc-1" ⟨"PENDING", "aggregate", 2, "ACT"⟩ rfl rfl (by decide)

/-- The reflector either routes to the planner with the state otherwise
unchanged, or loops back to the swarm — and the loop is taken only below
the bound of 3. -/
lemma reflector_step_cases (o : Except String ReflectorAnalysis) (s : OodaState) :
    reflector_step o s = { s with node := .planner, ooda_phase := "DECIDE" } ∨
    (reflector_step o s
        = { s with node := .investigation_swarm, ooda_phase := "OBSERVE" } ∧
      s.investigation_count < 3) := by
  unfold reflector_step
  split
  · left; rfl
  · cases o with
    | error e => left; rfl
    | ok a =>
      dsimp only
      split
      next hcond => exact Or.inr ⟨rfl, hcond.2.2⟩
      next => left; rfl

/-- Every state reachable in the built graph keeps `investigation_count`
at most 3, enters the swarm only with a count at most 2, and sits at
`prepare` only with count 0. -/
lemma ooda_invariant (s : OodaState) (h : OodaReachable s) :
    s.investigation_count ≤ 3 ∧
    (s.node = .investigation_swarm → s.investigation_count ≤ 2) ∧
    (s.node = .prepare → s.investigation_count = 0) := by
  induction h with
  | refl => exact ⟨by decide, fun _ => by decide, fun _ => rfl⟩
  | tail _ hstep ih =>
    cases hstep with
    | prepare h =>
      exact ⟨by simp [prepare_step], fun _ => by simp [prepare_step],
        fun hn => by simp [prepare_step] at hn⟩
    | swarm h =>
      have hc := ih.2.1 h
      refine ⟨?_, fun hn => ?_, fun hn => ?_⟩
      · simp [investigation_swarm_step]
        omega
      · simp [investigation_swarm_step] at hn
      · simp [investigation_swarm_step] at hn
    | reflector oracle h =>
      rcases reflector_step_cases oracle _ with heq | ⟨heq, hlt⟩ <;> rw [heq]
      · exact ⟨ih.1, fun hn => by simp at hn, fun hn => by simp at hn⟩
      · exact ⟨ih.1, fun _ => Nat.lt_succ_iff.mp hlt, fun hn => by simp at hn⟩
    | planner t h ht hc =>
      refine ⟨by rw [hc]; exact ih.1, fun hn => ?_, fun hn => ?_⟩ <;>
        rw [ht] at hn <;> simp at hn
    | policy_gate t h ht hc =>
      refine ⟨by rw [hc]; exact ih.1, fun hn => ?_, fun hn => ?_⟩ <;>
        (rcases ht with ht | ht <;> rw [ht] at hn <;> simp at hn)
    | executor t h ht hc =>
      refine ⟨by rw [hc]; exact ih.1, fun hn => ?_, fun hn => ?_⟩ <;>
        rw [ht] at hn <;> simp at hn
    | verifier t h ht hc =>
      refine ⟨by rw [hc]; exact ih.1, fun hn => ?_, fun hn => ?_⟩ <;>
        rw [ht] at hn <;> simp at hn

/-- C8: within one investigation of the built graph, `investigation_count`
never exceeds 3 along any reachable state, every transition is monotonically
non-decreasing in the counter, the prepare node seeds it at 0, each swarm
visit increments it by exactly one, and the reflector routes back to the
swarm exactly when the analysis demands deeper investigation with a
non-empty recommended-agent list and the count is below 3 — otherwise it
routes to the planner. -/
theorem C8_theorem (t : OodaState) (ht : OodaReachable t) :
    t.investigation_count ≤ 3 ∧
    (∀ u, OodaStep t u → t.investigation_count ≤ u.investigation_count) ∧
    (prepare_step t).investigation_count = 0 ∧
    (investigation_swarm_step true t).investigation_count
      = t.investigation_count + 1 ∧
    (∀ a : ReflectorAnalysis,
      ((reflector_step (.ok a) t).node = .investigation_swarm ↔
        t.has_findings = true ∧ a.requires_deeper_investigation = true ∧
          a.recommended_agents ≠ [] ∧ t.investigation_count < 3)) ∧
    (∀ o : Except String ReflectorAnalysis,
      (reflector_step o t).node = .investigation_swarm ∨
        (reflector_step o t).node = .planner) := by
  obtain ⟨h3, _, hprep⟩ := ooda_invariant t ht
  refine ⟨h3, ?_, rfl, rfl, ?_, ?_⟩
  · intro u hstep
    cases hstep with
    | prepare h => simp [prepare_step, hprep h]
    | swarm h => exact Nat.le_succ _
    | reflector oracle h =>
      rcases reflector_step_cases oracle t with heq | ⟨heq, _⟩ <;> rw [heq]
    | planner u h hu hc => omega
    | policy_gate u h hu hc => omega
    | executor u h hu hc => omega
    | verifier u h hu hc => omega
  · intro a
    by_cases hf : t.has_findings = true
    · by_cases hcond : a.requires_deeper_investigation = true ∧
        a.recommended_agents ≠ [] ∧ t.investigation_count < 3
      · obtain ⟨h1, h2, h4⟩ := hcond
        simp [reflector_step, hf, h1, h2, h4]
      · simp [reflector_step, hf, hcond]
    · have hf' : t.has_findings = false := by simpa using hf
      simp [reflector_step, hf']
  · intro o
    rcases reflector_step_cases o t with heq | ⟨heq, _⟩ <;> rw [heq]
    · right; rfl
    · left; rfl

/-- C8 witness: the theorem at the freshly-invoked graph state, with the
routing equivalence instantiated at a concrete oracle analysis. -/
theorem C8_witness :
    ooda_init.investigation_count ≤ 3 ∧
    (prepare_step ooda_init).investigation_count = 0 ∧
    (investigation_swarm_step true ooda_init).investigation_count
      = ooda_init.investigation_count + 1 ∧
    ((reflector_step (.ok ⟨true, ["logs_agent"]⟩) ooda_init).node
        = .investigation_swarm ↔
      ooda_init.has_findings = true ∧ (true : Bool) = true ∧
        (["logs_agent"] : List String) ≠ [] ∧ ooda_init.investigation_count < 3) := by
  have h := C8_theorem ooda_init Relation.ReflTransGen.refl
  exact ⟨h.1, h.2.2.1, h.2.2.2.1, h.2.2.2.2.1 ⟨true, ["logs_agent"]⟩⟩

/-- The second component of the executor entry is always the
consultation flag. -/
lemma executor_entry_consulted (st : ExecState) (r : RedisSim) :
    (executor_entry st r).2 = cidTruthy st.metadata.cluster_id := by
  unfold executor_entry
  split
  · rfl
  · split
    · rfl
    · split
      · rfl
      · split <;> rfl

/-- The executor aborts exactly when the break-glass guard fires. -/
lemma executor_entry_aborted_iff (st : ExecState) (r : RedisSim) :
    (executor_entry st r).1 = .aborted ↔ executor_lock_hit st r = true := by
  by_cases hhit : executor_lock_hit st r
  · simp [executor_entry, hhit]
  · simp only [executor_entry, hhit, Bool.false_eq_true, if_false]
    constructor
    · intro h
      exfalso
      revert h
      split
      · simp
      · split
        · simp
        · split <;> simp
    · intro h
      simp at hhit
      simp [hhit] at h

/-- C10: the executor's break-glass check is fail-open.  The lock is
consulted only when a cluster id is present and non-empty in the engine
metadata; `is_cluster_locked` returns `false` whenever the store is
unavailable or the lookup raises, and in that situation an approved plan
with tools available proceeds to execution; conversely an `ABORTED` entry
requires a reachable, non-raising store with the lock key present. -/
theorem C10_theorem (st : ExecState) (r : RedisSim)
    (p : List RemediationAction)
    (happr : st.approval_status = some "APPROVED")
    (hplan : st.remediation_plan = some p)
    (htools : st.metadata.tools ≠ [])
    (hdown : r.available = false ∨ r.fails = true) :
    (∀ cid, r.is_cluster_locked cid = false) ∧
    executor_entry st r = (.executed p, cidTruthy st.metadata.cluster_id) ∧
    (∀ (st' : ExecState) (r' : RedisSim),
      (executor_entry st' r').1 = .aborted →
        r'.available = true ∧ r'.fails = false ∧
          ∃ cid, st'.metadata.cluster_id = some cid ∧ cid.isEmpty = false ∧
            r'.locks.contains cid = true) ∧
    (st.metadata.cluster_id = none → (executor_entry st r).2 = false) := by
  have hlock : ∀ cid, r.is_cluster_locked cid = false := by
    intro cid
    rcases hdown with h | h <;> simp [RedisSim.is_cluster_locked, h]
  have hhit : executor_lock_hit st r = false := by
    unfold executor_lock_hit
    cases hm : st.metadata.cluster_id with
    | none => rfl
    | some cid => simp [hlock]
  refine ⟨hlock, ?_, ?_, ?_⟩
  · cases hm : st.metadata.tools with
    | nil => exact absurd hm htools
    | cons a l =>
      simp [executor_entry, hhit, happr, hplan, hm]
  · intro st' r' habort
    have hhit' := (executor_entry_aborted_iff st' r').mp habort
    unfold executor_lock_hit at hhit'
    cases hm : st'.metadata.cluster_id with
    | none => rw [hm] at hhit'; cases hhit'
    | some cid =>
      rw [hm] at hhit'
      by_cases he : cid.isEmpty
      · simp [he] at hhit'
      · have he' : cid.isEmpty = false := by simpa using he
        simp only [he', if_false] at hhit'
        unfold RedisSim.is_cluster_locked at hhit'
        by_cases ha : r'.available
        · by_cases hf : r'.fails
          · simp [ha, hf] at hhit'
          · have hf' : r'.fails = false := by simpa using hf
            refine ⟨ha, hf', cid, rfl, he', ?_⟩
            simpa [ha, hf'] using hhit'
        · simp [by simpa using ha] at hhit'
  · intro hm
    rw [executor_entry_consulted, hm]
    rfl

/-- C10 witness: the theorem at an approved single-action plan and a store
whose connection is down. -/
theorem C10_witness :
    rC10.is_cluster_locked "cluster-1" = false ∧
    executor_entry stC10 rC10 = (.executed [⟨"restart", "pod-x", []⟩], true) := by
  have h := C10_theorem stC10 rC10 [⟨"restart", "pod-x", []⟩]
    rfl rfl (by decide) (Or.inl rfl)
  exact ⟨h.1 "cluster-1", h.2.1.trans (by decide)⟩

/-- C6 (code bug): the lock and audit routes enforce no ownership check.
The same cross-organization user who is correctly rejected (404) by the
health route may set the break-glass lock on organization 1's cluster —
HTTP 200, the lock key set, an audit event written (a state change) — and
may read that cluster's lock flag and audit trail. -/
theorem C6_theorem :
    get_cluster_health_route dbC6 crossOrgUser 1 = .error 404 ∧
    (set_cluster_lock_route dbC6 rC6 crossOrgUser 1 (some true)).1 = .ok true ∧
    ((set_cluster_lock_route dbC6 rC6 crossOrgUser 1 (some true)).2.2).is_cluster_locked
      "1" = true ∧
    (set_cluster_lock_route dbC6 rC6 crossOrgUser 1 (some true)).2.1.audit_events
      = [⟨1, "EMERGENCY_LOCK_TOGGLE", "cluster", "SUCCESS", "USER",
          "mallory@org-b.example", "Lock set to True"⟩] ∧
    get_cluster_lock_route rC6 crossOrgUser 1 = .ok false ∧
    get_cluster_audit_route dbC6 crossOrgUser 1 50 = .ok [] := by
  refine ⟨by decide, by decide, by decide, by decide, by decide, by decide⟩

/-- C7 counterexample: `jobC7` is terminal (`completed`), yet a subsequent
authenticated `UpdateStatus` call with status `running` moves it back to
`running` — terminal state is not stable. -/
theorem C7_counterexample :
    jobC7.status = JobStatus.completed ∧
    update_job_status_route clustersC7 [jobC7] 200 "cl_tok" 7
        ⟨.running, none, none⟩
      = .ok ({ jobC7 with status := JobStatus.running },
          [{ jobC7 with status := JobStatus.running }]) := by
  exact ⟨rfl, by decide⟩

/-- The result stage leaves the status field alone. -/
lemma applyResult_status (u : JobStatusUpdate) (j : Job) :
    (applyResult u j).status = j.status := by
  unfold applyResult
  split <;> rfl

/-- The log-append stage leaves the status field alone. -/
lemma applyLogs_status (u : JobStatusUpdate) (j : Job) :
    (applyLogs u j).status = j.status := by
  unfold applyLogs
  split <;> rfl

/-- The timestamp stage leaves the status field alone. -/
lemma applyTimestamps_status (now : Nat) (u : JobStatusUpdate) (j : Job) :
    (applyTimestamps now u j).status = j.status := by
  unfold applyTimestamps
  split
  · rfl
  · split <;> rfl

/-- Each post-status stage of the update leaves the status field alone. -/
lemma apply_status_update_status (now : Nat) (u : JobStatusUpdate) (j : Job) :
    (apply_status_update now u j).status = u.status := by
  unfold apply_status_update
  rw [applyTimestamps_status, applyLogs_status, applyResult_status]

/-- C7 (amended): `update_job_status` applies the requested status
unconditionally — for every job found in the table, the updated row's
status equals the requested one, whatever the previous (possibly terminal)
status was.  Terminal-state immutability is a convention for well-behaved
workers, not an enforced invariant. -/
theorem C7_theorem (db : List Job) (now : Nat) (job_id : Nat)
    (u : JobStatusUpdate) (j : Job) (hj : get_job_by_id db job_id = some j) :
    ((update_job_status db now job_id u).1.map Job.status) = some u.status := by
  simp [update_job_status, hj, apply_status_update_status]

/-- C7 witness: the amended theorem at the terminal job `jobC7`. -/
theorem C7_witness :
    get_job_by_id [jobC7] 7 = some jobC7 ∧
    ((update_job_status [jobC7] 200 7 ⟨.running, none, none⟩).1.map Job.status)
      = some JobStatus.running :=
  ⟨by decide,
    C7_theorem [jobC7] 200 7 ⟨.running, none, none⟩ jobC7 (by decide)⟩

/-- The running minimum is one of its inputs. -/
lemma oldestBy_mem : ∀ (rest : List Job) (j : Job),
    oldestBy j rest = j ∨ oldestBy j rest ∈ rest := by
  intro rest
  induction rest with
  | nil => intro j; left; rfl
  | cons a l ih =>
    intro j
    unfold oldestBy
    by_cases h : a.created_at < j.created_at
    · simp only [if_pos h]
      rcases ih a with h' | h'
      · right; rw [h']; exact List.mem_cons_self a l
      · right; exact List.mem_cons_of_mem a h'
    · simp only [if_neg h]
      rcases ih j with h' | h'
      · left; exact h'
      · right; exact List.mem_cons_of_mem a h'

/-- The running minimum is at most every input's creation time. -/
lemma oldestBy_min : ∀ (rest : List Job) (j : Job),
    (oldestBy j rest).created_at ≤ j.created_at ∧
      ∀ k ∈ rest, (oldestBy j rest).created_at ≤ k.created_at := by
  intro rest
  induction rest with
  | nil => intro j; exact ⟨Nat.le_refl _, by simp⟩
  | cons a l ih =>
    intro j
    unfold oldestBy
    by_cases h : a.created_at < j.created_at
    · simp only [if_pos h]
      refine ⟨Nat.le_trans (ih a).1 (Nat.le_of_lt h), ?_⟩
      intro k hk
      rcases List.mem_cons.mp hk with rfl | hk'
      · exact (ih _).1
      · exact (ih _).2 k hk'
    · simp only [if_neg h]
      refine ⟨(ih j).1, ?_⟩
      intro k hk
      rcases List.mem_cons.mp hk with rfl | hk'
      · exact Nat.le_trans (ih j).1 (Nat.le_of_not_lt h)
      · exact (ih j).2 k hk'

/-- C9: with a valid cluster token, the pending-job claim returns the
response of the pure query over an unchanged job table (no job is
transitioned to `running` or otherwise touched); the query returns none
exactly when the cluster has no pending job, and otherwise some pending
job of that cluster whose creation time is minimal among them. -/
theorem C9_theorem (clusters : List Cluster) (db : List Job) (token : String)
    (c : Cluster) (hc : get_cluster_by_token clusters token = some c) :
    get_pending_job_route clusters db token
      = .ok (get_pending_job_for_cluster db c.id, db) ∧
    (get_pending_job_for_cluster db c.id = none ↔
      ∀ j ∈ db, ¬(j.cluster_id = c.id ∧ j.status = JobStatus.pending)) ∧
    (∀ j, get_pending_job_for_cluster db c.id = some j →
      j ∈ db ∧ j.cluster_id = c.id ∧ j.status = JobStatus.pending ∧
        ∀ k ∈ db, k.cluster_id = c.id → k.status = JobStatus.pending →
          j.created_at ≤ k.created_at) := by
  have hfilter : ∀ k : Job,
      k ∈ db.filter (fun j => j.cluster_id == c.id && j.status == JobStatus.pending) ↔
        k ∈ db ∧ (k.cluster_id = c.id ∧ k.status = JobStatus.pending) := by
    intro k
    simp [List.mem_filter]
  refine ⟨by simp [get_pending_job_route, hc], ?_, ?_⟩
  · unfold get_pending_job_for_cluster
    cases hfil : db.filter (fun j =>
        j.cluster_id == c.id && j.status == JobStatus.pending) with
    | nil =>
      simp only [true_iff]
      intro j hj hcond
      have : j ∈ (db.filter (fun j =>
          j.cluster_id == c.id && j.status == JobStatus.pending)) :=
        (hfilter j).mpr ⟨hj, hcond⟩
      rw [hfil] at this
      cases this
    | cons a l =>
      have ha : a ∈ db ∧ (a.cluster_id = c.id ∧ a.status = JobStatus.pending) := by
        refine (hfilter a).mp ?_
        rw [hfil]
        exact List.mem_cons_self a l
      constructor
      · intro h
        simp at h
      · intro hall
        exact absurd ha.2 (hall a ha.1)
  · intro j hj
    unfold get_pending_job_for_cluster at hj
    cases hfil : db.filter (fun j =>
        j.cluster_id == c.id && j.status == JobStatus.pending) with
    | nil => rw [hfil] at hj; cases hj
    | cons a l =>
      rw [hfil] at hj
      have hj' : j = oldestBy a l := by
        have := Option.some.inj hj
        exact this.symm
      have hmem : j ∈ a :: l := by
        rcases oldestBy_mem l a with h' | h'
        · rw [hj', h']; exact List.mem_cons_self a l
        · rw [hj']; exact List.mem_cons_of_mem a h'
      have hjdb : j ∈ db ∧ (j.cluster_id = c.id ∧ j.status = JobStatus.pending) := by
        refine (hfilter j).mp ?_
        rw [hfil]
        exact hmem
      refine ⟨hjdb.1, hjdb.2.1, hjdb.2.2, ?_⟩
      intro k hk hkc hkp
      have hkmem : k ∈ a :: l := by
        have : k ∈ db.filter (fun j =>
            j.cluster_id == c.id && j.status == JobStatus.pending) :=
          (hfilter k).mpr ⟨hk, hkc, hkp⟩
        rw [hfil] at this
        exact this
      rcases List.mem_cons.mp hkmem with rfl | hk'
      · rw [hj']; exact (oldestBy_min l _).1
      · rw [hj']; exact (oldestBy_min l _).2 k hk'

/-- C9 witness: the theorem at the concrete token and table — the returned
job is cluster 1's oldest pending job (id 2, created at 30), not the other
cluster's older job nor the completed one, and the table is unchanged. -/
theorem C9_witness :
    get_cluster_by_token clustersC9 "cl_tok" = some ⟨1, 1, "cl_tok"⟩ ∧
    get_pending_job_route clustersC9 dbC9 "cl_tok"
      = .ok (get_pending_job_for_cluster dbC9 1, dbC9) ∧
    get_pending_job_for_cluster dbC9 1
      = some ⟨2, 1, "remediation", "{}", .pending, none, none, 30, none, none⟩ :=
  ⟨by decide,
    (C9_theorem clustersC9 dbC9 "cl_tok" ⟨1, 1, "cl_tok"⟩ (by decide)).1,
    by decide⟩

end SRE
